import Mathlib

/-!
Shallow embedding of the LadonStack metric exporters
(`scripts/nvme_exporter.py` and `scripts/simple_gpu_exporter.py`).

External effects (subprocess invocation, JSON parsing, the filesystem and
the HTTP server) are made explicit: each external call's outcome is a
parameter of the embedded function, and the functions return the values,
log lines and filesystem states the Python code would produce.
-/

/-! ## String primitives

Python string operations used by the scripts, implemented over
character lists so that they evaluate by kernel reduction. -/

/-- Python `str.strip()`: drop whitespace from both ends. -/
def pyStrip (s : String) : String :=
  ⟨(((s.toList.dropWhile Char.isWhitespace).reverse).dropWhile
    Char.isWhitespace).reverse⟩

/-- Helper of `splitChar`: split the remaining characters at every
separator, `acc` holding the current piece reversed. -/
def splitCharAux (sep : Char) : List Char → List Char → List String
  | [], acc => [⟨acc.reverse⟩]
  | c :: cs, acc =>
      if c = sep then ⟨acc.reverse⟩ :: splitCharAux sep cs []
      else splitCharAux sep cs (c :: acc)

/-- Python `str.split(sep)` for a one-character separator (used with
`','`, `'\n'` and `'.'`): no collapsing of empty pieces, and the empty
string yields `[""]`. -/
def splitChar (sep : Char) (s : String) : List String :=
  splitCharAux sep s.toList []

/-- Python `str.replace(a, b)` for one-character arguments. -/
def replaceChar (a b : Char) (s : String) : String :=
  ⟨s.toList.map (fun c => if c = a then b else c)⟩

/-- Prefix test on character lists (`str.startswith`). -/
def leadsWith : List Char → List Char → Bool
  | [], _ => true
  | _ :: _, [] => false
  | p :: ps, c :: cs => p = c && leadsWith ps cs

/-! ## NVMe exporter: configuration and `run_command` -/

/-- `NVME_DEVICES` constant of `nvme_exporter.py` (line 19). -/
def NVME_DEVICES : List String := ["nvme0", "nvme1", "nvme2", "nvme3"]

/-- Outcome of one `subprocess.run` call inside `run_command`:
either it succeeds with a stdout text, raises `CalledProcessError`
(with message text `msg`), or raises `TimeoutExpired`. -/
inductive CmdOutcome where
  | ok (stdout : String)
  | err (msg : String)
  | timedOut
deriving DecidableEq

/-- Embedding of `run_command` (nvme_exporter.py lines 22-38).
Returns the optional stdout together with the log lines printed. -/
def run_command (cmd : List String) (outcome : CmdOutcome) : Option String × List String :=
  match outcome with
  | .ok s => (some s, [])
  | .err e => (none, ["Error running " ++ String.intercalate " " cmd ++ ": " ++ e])
  | .timedOut => (none, ["Timeout running " ++ String.intercalate " " cmd])

/-! ## NVMe exporter: device auto-detection -/

/-- One entry of the `"Devices"` array of `nvme list -o json` output;
`devicePath` is `none` when the `"DevicePath"` key is missing
(`device.get("DevicePath", "")` then defaults it to `""`). -/
structure ListEntry where
  devicePath : Option String
deriving DecidableEq

/-- Combined outcome of `run_command(["nvme", "list", "-o", "json"])` and
`json.loads` inside `detect_nvme_devices`: the command failed (returned
`None`), the JSON parse raised, or it parsed to a list of device entries
(an absent `"Devices"` key parses as the empty list). -/
inductive ListingOutcome where
  | cmdFailed
  | parseFailed
  | parsed (entries : List ListEntry)
deriving DecidableEq

/-- Maximal leading run of decimal digits of a character list. -/
def takeDigits : List Char → List Char
  | [] => []
  | c :: rest => if c.isDigit then c :: takeDigits rest else []

/-- Leftmost match of the regular expression `nvme\d+` in a character
list, as used by `re.search(r'(nvme\d+)', node)` in
`detect_nvme_devices` (line 54): scan left to right for the literal
`nvme` followed by at least one digit, taking the digits greedily. -/
def nvmeSearch : List Char → Option String
  | [] => none
  | 'n' :: 'v' :: 'm' :: 'e' :: rest =>
      let ds := takeDigits rest
      if ds.isEmpty then nvmeSearch ('v' :: 'm' :: 'e' :: rest)
      else some (String.mk ('n' :: 'v' :: 'm' :: 'e' :: ds))
  | _ :: rest => nvmeSearch rest
termination_by l => l.length

/-- Identifier extraction for one listing entry (lines 51-56):
take the node path (missing key defaults to `""`), require the
`/dev/nvme` path prefix, then search for `nvme\d+`. -/
def extractDevice (e : ListEntry) : Option String :=
  let node := e.devicePath.getD ""
  if leadsWith "/dev/nvme".toList node.toList then nvmeSearch node.toList
  else none

/-- Embedding of `detect_nvme_devices` (lines 41-60): on any failure of
the listing command or of JSON parsing the function returns `[]`;
otherwise it extracts identifiers, deduplicates (`set(...)`) and sorts
lexicographically (`sorted(...)`). -/
def detect_nvme_devices : ListingOutcome → List String
  | .cmdFailed => []
  | .parseFailed => []
  | .parsed entries =>
      List.insertionSort (fun a b => a ≤ b) ((entries.filterMap extractDevice).dedup)

/-! ## NVMe exporter: sampler -/

/-- Parsed JSON of `nvme smart-log <dev> -o json`; each field is `none`
when the key is absent from the tool's output (the code reads every one
of them with `smart.get(key, 0)`).  The `shutdowns` field embeds the
JSON key `"unsafe_shutdowns"`. -/
structure SmartData where
  temperature : Option Int
  critical_warning : Option Int
  available_spare : Option Int
  percentage_used : Option Int
  data_units_read : Option Int
  data_units_written : Option Int
  host_read_commands : Option Int
  host_write_commands : Option Int
  power_on_hours : Option Int
  power_cycles : Option Int
  shutdowns : Option Int
  media_errors : Option Int
deriving DecidableEq

/-- Parsed JSON of `nvme id-ctrl <dev> -o json`; `mn`, `sn`, `fr` are
`none` when the key is absent (the code reads `data.get("mn", "")`). -/
structure IdCtrlData where
  mn : Option String
  sn : Option String
  fr : Option String
deriving DecidableEq

/-- Parsed row of `/proc/diskstats` for the device, as produced by
`get_iostat` (lines 94-116).  The parsing loop itself is not modelled
field by field: the environment supplies its end result. -/
structure IostatRec where
  reads_completed : Nat
  reads_merged : Nat
  sectors_read : Nat
  time_reading_ms : Nat
  writes_completed : Nat
  writes_merged : Nat
  sectors_written : Nat
  time_writing_ms : Nat
  io_in_progress : Nat
  time_io_ms : Nat
  weighted_time_io_ms : Nat
deriving DecidableEq

/-- Environment of one collection cycle: the outcome of every external
call the NVMe exporter can make.  `info`, `smart` and `iostat` map a
device name to the parsed result of the respective query, `none`
covering both a failed command and unparsable output (each of which
makes the corresponding Python helper return `None`). -/
structure NvmeEnv where
  listing : ListingOutcome
  info : String → Option IdCtrlData
  smart : String → Option SmartData
  iostat : String → Option IostatRec

/-- Result record of `get_nvme_info` (lines 76-91): each identity field
defaults to `""` when absent and is stripped. -/
structure NvmeInfo where
  model : String
  serial : String
  firmware : String
deriving DecidableEq

/-- Embedding of `get_nvme_info` (lines 76-91). -/
def get_nvme_info (env : NvmeEnv) (device : String) : Option NvmeInfo :=
  (env.info device).map (fun d =>
    ⟨pyStrip (d.mn.getD ""), pyStrip (d.sn.getD ""), pyStrip (d.fr.getD "")⟩)

/-- The `combined` dict built by `collect_metrics` (lines 312-331).
A field of value `none` means the key is absent from the dict (which
for `collect_metrics` output can only happen to the iostat part);
`some v` means the key is present with value `v`. -/
structure DeviceRecord where
  model : Option String
  serial : Option String
  firmware : Option String
  temperature : Option Int
  critical_warning : Option Int
  available_spare : Option Int
  percentage_used : Option Int
  data_units_read : Option Int
  data_units_written : Option Int
  host_read_commands : Option Int
  host_write_commands : Option Int
  power_on_hours : Option Int
  power_cycles : Option Int
  shutdowns : Option Int
  media_errors : Option Int
  iostat : Option IostatRec
deriving DecidableEq

/-- Loop body of `collect_metrics` for one device (lines 291-333):
`None` when a mandatory sub-query (info or SMART) failed, otherwise the
key/value pair inserted into the metrics dict. -/
def collectOne (env : NvmeEnv) (device : String) :
    Option (String × List DeviceRecord) :=
  match get_nvme_info env device with
  | none => none
  | some info =>
    match env.smart device with
    | none => none
    | some smart =>
      let temp_kelvin := smart.temperature.getD 0
      let temp_celsius := if temp_kelvin > 0 then temp_kelvin - 273 else 0
      let combined : DeviceRecord :=
        ⟨some info.model, some info.serial, some info.firmware,
         some temp_celsius,
         some (smart.critical_warning.getD 0),
         some (smart.available_spare.getD 0),
         some (smart.percentage_used.getD 0),
         some (smart.data_units_read.getD 0),
         some (smart.data_units_written.getD 0),
         some (smart.host_read_commands.getD 0),
         some (smart.host_write_commands.getD 0),
         some (smart.power_on_hours.getD 0),
         some (smart.power_cycles.getD 0),
         some (smart.shutdowns.getD 0),
         some (smart.media_errors.getD 0),
         env.iostat device⟩
      some (device, [combined])

/-- Device-list selection at the top of `collect_metrics` (line 285):
`NVME_DEVICES if NVME_DEVICES else detect_nvme_devices()`.  The boolean
records whether the auto-detection branch was evaluated (Python only
evaluates `detect_nvme_devices()` when the configured list is falsy,
i.e. empty). -/
def selectDevices (listing : ListingOutcome) : List String × Bool :=
  if NVME_DEVICES.isEmpty then (detect_nvme_devices listing, true)
  else (NVME_DEVICES, false)

/-- Embedding of `collect_metrics` (lines 283-335): the metrics dict as
an association list in insertion order. -/
def collect_metrics (env : NvmeEnv) : List (String × List DeviceRecord) :=
  (selectDevices env.listing).1.filterMap (collectOne env)

/-! ## NVMe exporter: Prometheus encoder -/

/-- One output line of `format_prometheus_metrics`, kept structured: a
`# HELP` line, a `# TYPE` line, or one sample line with its metric
name, device, model and serial labels and value text. -/
inductive EncLine where
  | helpL (name text : String)
  | typeL (name kind : String)
  | sample (name device model serial value : String)
deriving DecidableEq

/-- Static metric descriptor: name, help text, type, and which record
field (dict key) the sample value is read from. -/
structure MetricDescriptor where
  name : String
  helpText : String
  kind : String
  value : DeviceRecord → Option Int

/-- The thirteen metric blocks of `format_prometheus_metrics`
(lines 119-280), in source order. -/
def descriptors : List MetricDescriptor :=
  [⟨"nvme_temperature_celsius",
    "Current temperature of NVMe device in Celsius", "gauge",
    fun r => r.temperature⟩,
   ⟨"nvme_available_spare_percent",
    "Available spare capacity percentage", "gauge",
    fun r => r.available_spare⟩,
   ⟨"nvme_percentage_used",
    "Percentage of rated endurance used", "gauge",
    fun r => r.percentage_used⟩,
   ⟨"nvme_critical_warning",
    "Critical warning indicator (0=ok, >0=warning)", "gauge",
    fun r => r.critical_warning⟩,
   ⟨"nvme_data_units_read_total",
    "Total data units read (512-byte units)", "counter",
    fun r => r.data_units_read⟩,
   ⟨"nvme_data_units_written_total",
    "Total data units written (512-byte units)", "counter",
    fun r => r.data_units_written⟩,
   ⟨"nvme_host_read_commands_total",
    "Total host read commands", "counter",
    fun r => r.host_read_commands⟩,
   ⟨"nvme_host_write_commands_total",
    "Total host write commands", "counter",
    fun r => r.host_write_commands⟩,
   ⟨"nvme_power_on_hours_total",
    "Total power-on hours", "counter",
    fun r => r.power_on_hours⟩,
   ⟨"nvme_power_cycles_total",
    "Total power cycles", "counter",
    fun r => r.power_cycles⟩,
   ⟨"nvme_unsafe_shutdowns_total",
    "Total unsafe shutdowns", "counter",
    fun r => r.shutdowns⟩,
   ⟨"nvme_media_errors_total",
    "Total media errors", "counter",
    fun r => r.media_errors⟩,
   ⟨"nvme_io_in_progress",
    "Current I/O operations in progress", "gauge",
    fun r => (r.iostat).map (fun s => (s.io_in_progress : Int))⟩]

/-- One metric block of the encoder: the unconditional `# HELP` and
`# TYPE` pair followed by, for every dict entry whose (truthy) list
head carries the key, one sample line.  `model`/`serial` fall back to
`"unknown"` when the key is absent (`data[0].get("model", "unknown")`). -/
def metricBlock (d : MetricDescriptor)
    (metrics : List (String × List DeviceRecord)) : List EncLine :=
  .helpL d.name d.helpText :: .typeL d.name d.kind ::
    metrics.filterMap (fun p =>
      match p.2 with
      | [] => none
      | r :: _ =>
        (d.value r).map (fun v =>
          .sample d.name p.1 ((r.model).getD "unknown")
            ((r.serial).getD "unknown") (toString v)))

/-- Structured line list of `format_prometheus_metrics`. -/
def encLines (metrics : List (String × List DeviceRecord)) : List EncLine :=
  descriptors.flatMap (fun d => metricBlock d metrics)

/-- Rendering of one structured line to its exact output text. -/
def renderLine : EncLine → String
  | .helpL n t => "# HELP " ++ n ++ " " ++ t
  | .typeL n k => "# TYPE " ++ n ++ " " ++ k
  | .sample n d m s v =>
      n ++ "\x7bdevice=\"" ++ d ++ "\",model=\"" ++ m ++ "\",serial=\"" ++
        s ++ "\"\x7d " ++ v

/-- Embedding of `format_prometheus_metrics` (lines 119-280).  `now` is
the wall-clock reading `time.time() * 1000`; the source assigns it to a
local `timestamp` variable that is never used afterwards. -/
def format_prometheus_metrics (now : Int)
    (metrics : List (String × List DeviceRecord)) : String :=
  let _timestamp := now
  String.intercalate "\n" ((encLines metrics).map renderLine) ++ "\n"

/-! ## NVMe exporter: file publisher -/

/-- Filesystem path split as directory components, stem and suffix, so
that `Path.with_suffix` is expressible. -/
structure FsPath where
  dir : List String
  stem : String
  ext : String
deriving DecidableEq

/-- `Path.with_suffix` (line 345): replace the final suffix, keeping
directory and stem. -/
def withSuffix (p : FsPath) (s : String) : FsPath := ⟨p.dir, p.stem, s⟩

/-- Filesystem contents: which text each path currently holds. -/
def Fs : Type := FsPath → Option String

/-- Point update of a filesystem state. -/
def fsSet (fs : Fs) (p : FsPath) (c : Option String) : Fs :=
  fun q => if q = p then c else fs q

/-- All character prefixes of a string, shortest first. -/
def stringTakes (s : String) : List String :=
  (List.range (s.length + 1)).map (fun n => s.take n)

/-- Observable filesystem states while `temp_file.write_text(content)`
is in progress: the temp file holds successively longer prefixes of the
content (the last state is the completed write). -/
def writeTextStates (fs : Fs) (p : FsPath) (content : String) : List Fs :=
  (stringTakes content).map (fun c => fsSet fs p (some c))

/-- `os.rename` of `src` onto `dst`: one atomic state change. -/
def renameState (fs : Fs) (src dst : FsPath) : Fs :=
  fsSet (fsSet fs dst (fs src)) src none

/-- Trace semantics of `write_metrics` (lines 338-349): every
filesystem state observable by a concurrent reader while the metrics
text is written to the `.tmp` path and then renamed onto the target.
Directory creation (`mkdir`) is not modelled. -/
def write_metrics_trace (metrics : List (String × List DeviceRecord))
    (now : Int) (fs : Fs) (output_file : FsPath) : List Fs :=
  let content := format_prometheus_metrics now metrics
  let temp_file := withSuffix output_file ".tmp"
  writeTextStates fs temp_file content ++
    [renameState (fsSet fs temp_file (some content)) temp_file output_file]

/-! ## GPU exporter (`simple_gpu_exporter.py`) -/

/-- Outcome of the `subprocess.run(nvidia-smi ...)` call inside
`get_gpu_metrics`: a timeout, a missing binary, or a completed run with
return code, stdout and stderr. -/
inductive SmiOutcome where
  | timedOut
  | notFound
  | ran (returncode : Int) (stdout : String) (stderr : String)
deriving DecidableEq

/-- The eight unconditional header pairs emitted before any GPU row
(lines 58-80). -/
def gpuHeaderLines : List String :=
  ["# HELP nvidia_gpu_temperature_celsius GPU temperature in Celsius",
   "# TYPE nvidia_gpu_temperature_celsius gauge",
   "# HELP nvidia_gpu_utilization_percent GPU utilization percentage",
   "# TYPE nvidia_gpu_utilization_percent gauge",
   "# HELP nvidia_gpu_memory_utilization_percent GPU memory utilization percentage",
   "# TYPE nvidia_gpu_memory_utilization_percent gauge",
   "# HELP nvidia_gpu_memory_total_bytes GPU total memory in bytes",
   "# TYPE nvidia_gpu_memory_total_bytes gauge",
   "# HELP nvidia_gpu_memory_used_bytes GPU used memory in bytes",
   "# TYPE nvidia_gpu_memory_used_bytes gauge",
   "# HELP nvidia_gpu_memory_free_bytes GPU free memory in bytes",
   "# TYPE nvidia_gpu_memory_free_bytes gauge",
   "# HELP nvidia_gpu_power_draw_watts GPU power draw in watts",
   "# TYPE nvidia_gpu_power_draw_watts gauge",
   "# HELP nvidia_gpu_power_limit_watts GPU power limit in watts",
   "# TYPE nvidia_gpu_power_limit_watts gauge"]

/-- The trailing `up` metric (lines 120-122). -/
def gpuUpLines : List String :=
  ["# HELP nvidia_gpu_exporter_up Whether the exporter is working",
   "# TYPE nvidia_gpu_exporter_up gauge",
   "nvidia_gpu_exporter_up 1"]

/-- Exact nonnegative decimal literal: integer part and the digits
after the decimal point.  Models the numeric fields `nvidia-smi
--format=csv,nounits` prints, which Python reads with `float(...)`. -/
structure Dec where
  intPart : Nat
  frac : List Nat
deriving DecidableEq

/-- All-digit check returning the digit values. -/
def digitsOf : List Char → Option (List Nat)
  | [] => some []
  | c :: rest =>
      if c.isDigit then (digitsOf rest).map (fun ds => (c.toNat - 48) :: ds)
      else none

/-- Numeric value of a digit list. -/
def digitsVal (ds : List Nat) : Nat := ds.foldl (fun a d => a * 10 + d) 0

/-- Parse of a plain decimal literal (`123` or `123.45`, also `.5` and
`5.`), modelling acceptance by Python's `float()` on the plain decimal
strings nvidia-smi emits; anything else raises `ValueError`. -/
def parseDec (s : String) : Option Dec :=
  match splitChar '.' s with
  | [a] =>
      match digitsOf a.toList with
      | some (d :: ds) => some ⟨digitsVal (d :: ds), []⟩
      | _ => none
  | [a, b] =>
      match digitsOf a.toList, digitsOf b.toList with
      | some da, some db =>
          if da.isEmpty ∧ db.isEmpty then none
          else some ⟨digitsVal da, db⟩
      | _, _ => none
  | _ => none

/-- Drop trailing zero digits of a fractional part. -/
def trimZeros (ds : List Nat) : List Nat :=
  (ds.reverse.dropWhile (fun d => d = 0)).reverse

/-- Text of a digit list, `"0"` when empty. -/
def digitsText (ds : List Nat) : String :=
  if ds.isEmpty then "0"
  else String.mk (ds.map (fun d => Char.ofNat (d + 48)))

/-- `str(float(...))` for the decimal values in range here: trailing
zeros of the fraction are dropped and an integral value prints with a
single `.0` (so `50` prints as `50.0`, `50.50` as `50.5`). -/
def pyFloatStr (d : Dec) : String :=
  toString d.intPart ++ "." ++ digitsText (trimZeros d.frac)

/-- `int(float(s) * 1024 * 1024)` for an exact decimal input: scale by
2^20 and truncate (the values are nonnegative, so truncation is
flooring). -/
def memBytes (d : Dec) : Nat :=
  let k := d.frac.length
  (d.intPart * 10 ^ k + digitsVal d.frac) * 1048576 / 10 ^ k

/-- Value text for a directly reported float field: `[Not Supported]`
is replaced by the integer `0` (printed `0`), otherwise the parsed
float prints via `pyFloatStr`; `none` is a `ValueError`. -/
def floatField (s : String) : Option String :=
  if s = "[Not Supported]" then some "0"
  else (parseDec s).map pyFloatStr

/-- Value text for a memory field (MiB scaled to bytes then `int()`),
`[Not Supported]` again giving `0`. -/
def memField (s : String) : Option String :=
  if s = "[Not Supported]" then some "0"
  else (parseDec s).map (fun d => toString (memBytes d))

/-- Outcome of the per-row loop body of `get_gpu_metrics`
(lines 83-117) on one CSV line: the row was blank (skipped, line 84),
had fewer than 10 comma-separated fields (skipped, line 88), raised
`ValueError` while parsing a numeric field (logged, line 115), or
produced its eight sample lines. -/
inductive GpuLineResult where
  | skippedBlank
  | skippedShort
  | parseError
  | emitted (lines : List String)
deriving DecidableEq

/-- Embedding of the loop body of `get_gpu_metrics` for one CSV row. -/
def processGpuLine (line : String) : GpuLineResult :=
  if pyStrip line = "" then .skippedBlank
  else
    let parts := (splitChar ',' line).map pyStrip
    if parts.length < 10 then .skippedShort
    else
      let gpu_index := parts.getD 0 ""
      let gpu_name := replaceChar ' ' '_' (parts.getD 1 "")
      match floatField (parts.getD 2 ""), floatField (parts.getD 3 ""),
            floatField (parts.getD 4 ""), memField (parts.getD 5 ""),
            memField (parts.getD 6 ""), memField (parts.getD 7 ""),
            floatField (parts.getD 8 ""), floatField (parts.getD 9 "") with
      | some temp, some utilGpu, some utilMem, some memTotal,
        some memUsed, some memFree, some powerDraw, some powerLimit =>
          let labels := "gpu=\"" ++ gpu_index ++ "\",name=\"" ++ gpu_name ++ "\""
          .emitted
            ["nvidia_gpu_temperature_celsius\x7b" ++ labels ++ "\x7d " ++ temp,
             "nvidia_gpu_utilization_percent\x7b" ++ labels ++ "\x7d " ++ utilGpu,
             "nvidia_gpu_memory_utilization_percent\x7b" ++ labels ++ "\x7d " ++ utilMem,
             "nvidia_gpu_memory_total_bytes\x7b" ++ labels ++ "\x7d " ++ memTotal,
             "nvidia_gpu_memory_used_bytes\x7b" ++ labels ++ "\x7d " ++ memUsed,
             "nvidia_gpu_memory_free_bytes\x7b" ++ labels ++ "\x7d " ++ memFree,
             "nvidia_gpu_power_draw_watts\x7b" ++ labels ++ "\x7d " ++ powerDraw,
             "nvidia_gpu_power_limit_watts\x7b" ++ labels ++ "\x7d " ++ powerLimit]
      | _, _, _, _, _, _, _, _ => .parseError

/-- Sample lines an outcome contributes to the response body. -/
def gpuLineEmits : GpuLineResult → List String
  | .emitted ls => ls
  | _ => []

/-- Log lines printed while handling one CSV row: only the
`ValueError` branch prints (`print(f"Error parsing GPU data: ...")`,
line 116); blank and short rows are skipped with no output. -/
def gpuLineLogs (line : String) : List String :=
  match processGpuLine line with
  | .parseError => ["Error parsing GPU data"]
  | _ => []

/-- Embedding of `get_gpu_metrics` (lines 39-131): `Except.error` is a
raised exception with its message, `Except.ok` the full metrics text. -/
def get_gpu_metrics (o : SmiOutcome) : Except String String :=
  match o with
  | .timedOut => .error "nvidia-smi timeout"
  | .notFound => .error "nvidia-smi not found"
  | .ran rc stdout stderr =>
      if rc ≠ 0 then
        .error ("Failed to get GPU metrics: nvidia-smi failed: " ++ stderr)
      else
        let lines := splitChar '\n' (pyStrip stdout)
        let body := gpuHeaderLines ++
          lines.flatMap (fun l => gpuLineEmits (processGpuLine l)) ++
          gpuUpLines
        .ok (String.intercalate "\n" body ++ "\n")

/-- HTTP response: status, optional `Content-type` header, body text. -/
structure HttpResponse where
  status : Nat
  contentType : Option String
  body : String
deriving DecidableEq

/-- Embedding of `GPUMetricsHandler.do_GET` (lines 17-32).  The
argument `smi` is the state of the nvidia-smi invocation made while
handling this very request: the handler calls `get_gpu_metrics()`
anew on each request. -/
def do_GET (path : String) (smi : SmiOutcome) : HttpResponse :=
  if path = "/metrics" then
    match get_gpu_metrics smi with
    | .ok m => ⟨200, some "text/plain; version=0.0.4; charset=utf-8", m⟩
    | .error e => ⟨500, some "text/plain", "Error: " ++ e⟩
  else ⟨404, none, ""⟩

/-! ## Auxiliary observers and concrete test environments -/

/-- Device label of a sample line (`none` for header lines). -/
def sampleDeviceOf : EncLine → Option String
  | .sample _ d _ _ _ => some d
  | _ => none

/-- Model label of a sample line (`none` for header lines). -/
def sampleModelOf : EncLine → Option String
  | .sample _ _ m _ _ => some m
  | _ => none

/-- Header-line test: `# HELP` and `# TYPE` lines. -/
def isHeaderE : EncLine → Bool
  | .helpL _ _ => true
  | .typeL _ _ => true
  | .sample _ _ _ _ _ => false

/-- SMART parse with only a temperature key (value 300) present. -/
def smartOnlyTemp : SmartData :=
  ⟨some 300, none, none, none, none, none, none, none, none, none, none, none⟩

/-- SMART parse with every key absent. -/
def smartEmpty : SmartData :=
  ⟨none, none, none, none, none, none, none, none, none, none, none, none⟩

/-- Cycle in which `nvme0` answers both mandatory queries but `nvme1`
(and the rest) fail the info query. -/
def envC2 : NvmeEnv :=
  ⟨.parsed [],
   fun d => if d = "nvme0" then some ⟨some "MOD", some "SER", some "FW"⟩ else none,
   fun d => if d = "nvme0" then some smartOnlyTemp else none,
   fun _ => none⟩

/-- Cycle in which `nvme0` reports raw temperature 300. -/
def envC4 : NvmeEnv :=
  ⟨.parsed [],
   fun d => if d = "nvme0" then some ⟨some "MOD", some "SER", some "FW"⟩ else none,
   fun d => if d = "nvme0" then some smartOnlyTemp else none,
   fun _ => none⟩

/-- The metrics-dict entry `collect_metrics` builds for `nvme0` under
`envC4`. -/
def entryC4 : String × List DeviceRecord :=
  ("nvme0",
   [⟨some "MOD", some "SER", some "FW", some 27, some 0, some 0, some 0,
     some 0, some 0, some 0, some 0, some 0, some 0, some 0, some 0, none⟩])

/-- Cycle in which `nvme0` answers both mandatory queries but the
id-ctrl output has no `mn`/`sn`/`fr` keys and the SMART output has no
keys at all. -/
def envC6 : NvmeEnv :=
  ⟨.parsed [],
   fun d => if d = "nvme0" then some ⟨none, none, none⟩ else none,
   fun d => if d = "nvme0" then some smartEmpty else none,
   fun _ => none⟩

/-- The production output path `METRICS_DIR / "nvme_metrics.prom"`. -/
def targetC3 : FsPath := ⟨["var", "lib", "node_exporter"], "nvme_metrics", ".prom"⟩

/-- An initially empty filesystem. -/
def fsEmpty : Fs := fun _ => none

/-- nvidia-smi run that succeeds with no GPU rows. -/
def smiA : SmiOutcome := .ran 0 "" ""

/-- nvidia-smi run that fails with a non-zero exit status. -/
def smiB : SmiOutcome := .ran 1 "" "boom"

/-- The metrics text a successful run with no GPU rows produces. -/
def gpuBody0 : String :=
  String.intercalate "\n" (gpuHeaderLines ++ gpuUpLines) ++ "\n"

/-! ## Helper lemmas -/

/-- A successful `collectOne` records exactly the queried device as key,
wraps a single record, and required both mandatory sub-queries to have
succeeded. -/
theorem collectOne_shape (env : NvmeEnv) (dev : String)
    (p : String × List DeviceRecord) (h : collectOne env dev = some p) :
    p.1 = dev ∧ env.info dev ≠ none ∧ env.smart dev ≠ none := by
  unfold collectOne at h
  cases hinfo : env.info dev with
  | none => simp [get_nvme_info, hinfo] at h
  | some i =>
    cases hsmart : env.smart dev with
    | none => simp [get_nvme_info, hinfo, hsmart] at h
    | some sm =>
      simp only [get_nvme_info, hinfo, hsmart, Option.map_some'] at h
      refine ⟨?_, by simp [hinfo], by simp [hsmart]⟩
      cases h
      rfl

/-- Every entry of the metrics dict comes from a successful
`collectOne` run on some selected device. -/
theorem mem_collect_metrics (env : NvmeEnv) (p : String × List DeviceRecord)
    (h : p ∈ collect_metrics env) :
    ∃ dev ∈ (selectDevices env.listing).1, collectOne env dev = some p :=
  List.mem_filterMap.mp h

/-- Every line of a metric block is either a header line or a sample
line labelled with the key of some dict entry. -/
theorem metricBlock_line_src (d : MetricDescriptor)
    (m : List (String × List DeviceRecord)) (l : EncLine)
    (h : l ∈ metricBlock d m) :
    sampleDeviceOf l = none ∨ ∃ p ∈ m, sampleDeviceOf l = some p.1 := by
  unfold metricBlock at h
  rcases h with _ | ⟨_, h⟩
  · exact Or.inl rfl
  rcases h with _ | ⟨_, h⟩
  · exact Or.inl rfl
  obtain ⟨p, hp, hg⟩ := List.mem_filterMap.mp h
  right
  refine ⟨p, hp, ?_⟩
  cases hval : p.2 with
  | nil => rw [hval] at hg; cases hg
  | cons r rest =>
    rw [hval] at hg
    obtain ⟨v, _, hl⟩ := Option.map_eq_some'.mp hg
    rw [← hl]
    rfl

/-- Sample lines are not header lines (for the filter argument). -/
theorem metricBlock_filter_header (d : MetricDescriptor)
    (m : List (String × List DeviceRecord)) :
    (metricBlock d m).filter isHeaderE =
      [.helpL d.name d.helpText, .typeL d.name d.kind] := by
  unfold metricBlock
  rw [List.filter_cons_of_pos (by rfl), List.filter_cons_of_pos (by rfl)]
  rw [List.filter_eq_nil_iff.mpr]
  intro a ha
  obtain ⟨p, _, hg⟩ := List.mem_filterMap.mp ha
  cases hval : p.2 with
  | nil => rw [hval] at hg; cases hg
  | cons r rest =>
    rw [hval] at hg
    obtain ⟨v, _, hl⟩ := Option.map_eq_some'.mp hg
    rw [← hl]
    simp [isHeaderE]

/-- Filtering the header lines out of any run of metric blocks leaves
exactly the `# HELP`/`# TYPE` pair of each block, in order. -/
theorem filter_header_flatMap (ds : List MetricDescriptor)
    (m : List (String × List DeviceRecord)) :
    (ds.flatMap (fun d => metricBlock d m)).filter isHeaderE =
      ds.flatMap (fun d =>
        [EncLine.helpL d.name d.helpText, EncLine.typeL d.name d.kind]) := by
  induction ds with
  | nil => rfl
  | cons d ds ih =>
      rw [List.flatMap_cons, List.flatMap_cons, List.filter_append,
        metricBlock_filter_header, ih]

/-! ## Claim theorems -/

/-- C5: for every snapshot, including the empty one, the encoder's
header lines are exactly one `# HELP` and one `# TYPE` line per entry
of the static descriptor table, in the declared order — independent of
the device entries present. -/
theorem c5_headers_exact (m : List (String × List DeviceRecord)) :
    (encLines m).filter isHeaderE =
      descriptors.flatMap (fun d =>
        [EncLine.helpL d.name d.helpText, EncLine.typeL d.name d.kind]) :=
  filter_header_flatMap descriptors m

/-- C8: encoding is deterministic and idempotent — the output depends
only on the snapshot (and the static descriptor table baked into
`encLines`), not on the wall-clock value read at the top of
`format_prometheus_metrics`, so encoding the same snapshot at any two
times yields byte-identical text. -/
theorem c8_encode_deterministic (now1 now2 : Int)
    (m : List (String × List DeviceRecord)) :
    format_prometheus_metrics now1 m = format_prometheus_metrics now2 m := rfl

/-- C9: auto-detection returns the lexicographically sorted,
deduplicated identifiers extracted from the listing tool's parsed
output via the `/dev/nvme` path convention, and returns the empty list
whenever the listing command fails (error or timeout) or its output is
unparsable. -/
theorem c9_detect_spec :
    detect_nvme_devices .cmdFailed = [] ∧
    detect_nvme_devices .parseFailed = [] ∧
    ∀ entries : List ListEntry,
      (detect_nvme_devices (.parsed entries)).Sorted (fun a b => a ≤ b) ∧
      (detect_nvme_devices (.parsed entries)).Nodup ∧
      ∀ s, s ∈ detect_nvme_devices (.parsed entries) ↔
        ∃ e ∈ entries, extractDevice e = some s := by
  refine ⟨rfl, rfl, fun entries => ⟨?_, ?_, fun s => ?_⟩⟩
  · exact List.sorted_insertionSort _ _
  · exact ((List.perm_insertionSort _ _).nodup_iff).mpr
      (List.nodup_dedup _)
  · rw [show detect_nvme_devices (.parsed entries) =
      List.insertionSort (fun a b => a ≤ b)
        ((entries.filterMap extractDevice).dedup) from rfl,
      List.mem_insertionSort, List.mem_dedup, List.mem_filterMap]

/-- C10: the configured device list is the non-empty hardcoded
`["nvme0", "nvme1", "nvme2", "nvme3"]`, so device selection always
returns it, the auto-detection branch is never evaluated (flag
`false`), and every cycle iterates exactly that list. -/
theorem c10_fixed_devices :
    (∀ listing, selectDevices listing = (["nvme0", "nvme1", "nvme2", "nvme3"], false)) ∧
    NVME_DEVICES = ["nvme0", "nvme1", "nvme2", "nvme3"] ∧
    ∀ env, collect_metrics env = NVME_DEVICES.filterMap (collectOne env) :=
  ⟨fun _ => rfl, rfl, fun _ => rfl⟩

/-- C2: when a mandatory sub-query (device-info or SMART) fails for a
device, that device is omitted from the snapshot entirely, and no
sample line of the encoded output carries its identifier as device
label. -/
theorem c2_failed_device_absent (env : NvmeEnv) (d : String)
    (h : env.info d = none ∨ env.smart d = none) :
    (∀ p ∈ collect_metrics env, p.1 ≠ d) ∧
    ∀ l ∈ encLines (collect_metrics env), sampleDeviceOf l ≠ some d := by
  have habsent : ∀ p ∈ collect_metrics env, p.1 ≠ d := by
    intro p hp hpd
    obtain ⟨dev, _, hone⟩ := mem_collect_metrics env p hp
    obtain ⟨hfst, hinfo, hsmart⟩ := collectOne_shape env dev p hone
    rw [hfst] at hpd
    subst hpd
    rcases h with h | h
    · exact hinfo h
    · exact hsmart h
  refine ⟨habsent, fun l hl hld => ?_⟩
  obtain ⟨desc, _, hbl⟩ := List.mem_flatMap.mp hl
  rcases metricBlock_line_src desc (collect_metrics env) l hbl with hnone | ⟨p, hp, hdev⟩
  · rw [hld] at hnone; cases hnone
  · rw [hld] at hdev
    exact habsent p hp (Option.some.inj hdev).symm

/-- C2 witness: under `envC2` the info query for `nvme1` fails, and the
encoded cycle contains no entry and no sample line for `nvme1`. -/
theorem c2_witness :
    (envC2.info "nvme1" = none ∨ envC2.smart "nvme1" = none) ∧
    (∀ p ∈ collect_metrics envC2, p.1 ≠ "nvme1") ∧
    ∀ l ∈ encLines (collect_metrics envC2), sampleDeviceOf l ≠ some "nvme1" :=
  ⟨Or.inl rfl, c2_failed_device_absent envC2 "nvme1" (Or.inl rfl)⟩

/-- C4: for a device whose SMART output reports a raw (Kelvin)
temperature `T > 0`, the record sampled for it carries temperature
`T - 273`, computed during `collect_metrics` — in particular a raw
reading of 300 is published as 27. -/
theorem c4_temperature_conversion (env : NvmeEnv) (d : String)
    (sm : SmartData) (T : Int) (h2 : env.smart d = some sm)
    (h3 : sm.temperature = some T) (h4 : 0 < T) :
    ∀ p ∈ collect_metrics env, p.1 = d →
      ∀ r ∈ p.2, r.temperature = some (T - 273) := by
  intro p hp hpd r hr
  obtain ⟨dev, _, hone⟩ := mem_collect_metrics env p hp
  have hfst := (collectOne_shape env dev p hone).1
  have hd : dev = d := by rw [← hfst]; exact hpd
  subst hd
  unfold collectOne at hone
  cases hinfo : env.info dev with
  | none => simp [get_nvme_info, hinfo] at hone
  | some i =>
    simp only [get_nvme_info, hinfo, Option.map_some', h2, h3,
      Option.getD_some] at hone
    rw [if_pos h4] at hone
    cases hone
    simp only [List.mem_singleton] at hr
    subst hr
    rfl

/-- C4 witness: under `envC4` (raw temperature 300 on `nvme0`) the
snapshot's `nvme0` record is published with temperature 27. -/
theorem c4_witness :
    envC4.smart "nvme0" = some smartOnlyTemp ∧
    smartOnlyTemp.temperature = some 300 ∧ (0:Int) < 300 ∧
    entryC4 ∈ collect_metrics envC4 ∧
    (300:Int) - 273 = 27 ∧
    ∀ r ∈ entryC4.2, r.temperature = some ((300:Int) - 273) :=
  ⟨rfl, rfl, by decide, by decide, by decide,
   c4_temperature_conversion envC4 "nvme0" smartOnlyTemp 300 rfl rfl
     (by decide) entryC4 (by decide) rfl⟩

/-- C3: file-mode publish writes the encoded text to a `.tmp` path in
the same directory as the target and then renames it onto the target,
so every filesystem state a concurrent reader can observe shows the
target either with its previous content or with the complete new
text — never truncated. -/
theorem c3_atomic_publish (metrics : List (String × List DeviceRecord))
    (now : Int) (fs : Fs) (target : FsPath) (h : target.ext ≠ ".tmp") :
    (withSuffix target ".tmp").dir = target.dir ∧
    ∀ st ∈ write_metrics_trace metrics now fs target,
      st target = fs target ∨
      st target = some (format_prometheus_metrics now metrics) := by
  have hne : target ≠ withSuffix target ".tmp" := by
    intro he
    exact h (congrArg FsPath.ext he)
  refine ⟨rfl, ?_⟩
  intro st hst
  simp only [write_metrics_trace, writeTextStates, List.mem_append,
    List.mem_map, List.mem_singleton] at hst
  rcases hst with ⟨c, _, hstEq⟩ | hstEq
  · left
    rw [← hstEq]
    show (if target = withSuffix target ".tmp" then some c else fs target) =
      fs target
    rw [if_neg hne]
  · right
    rw [hstEq]
    show (if target = withSuffix target ".tmp" then none
      else if target = target then
        (if withSuffix target ".tmp" = withSuffix target ".tmp" then
          some (format_prometheus_metrics now metrics)
        else fs (withSuffix target ".tmp"))
      else
        (if target = withSuffix target ".tmp" then
          some (format_prometheus_metrics now metrics)
        else fs target)) = some (format_prometheus_metrics now metrics)
    rw [if_neg hne, if_pos rfl, if_pos rfl]

/-- C3 witness: publishing the empty snapshot onto the production
target path over an empty filesystem. -/
theorem c3_witness :
    targetC3.ext ≠ ".tmp" ∧
    ((withSuffix targetC3 ".tmp").dir = targetC3.dir ∧
     ∀ st ∈ write_metrics_trace [] 0 fsEmpty targetC3,
       st targetC3 = fsEmpty targetC3 ∨
       st targetC3 = some (format_prometheus_metrics 0 [])) :=
  ⟨by decide, c3_atomic_publish [] 0 fsEmpty targetC3 (by decide)⟩

/-- C6 counterexample: under `envC6` the id-ctrl output of `nvme0` has
no model/serial keys; the emitted temperature sample carries the empty
string as model and serial label — and no sample line of the cycle
carries the claimed sentinel label `"unknown"`. -/
theorem c6_counterexample :
    EncLine.sample "nvme_temperature_celsius" "nvme0" "" "" "0"
      ∈ encLines (collect_metrics envC6) ∧
    ∀ l ∈ encLines (collect_metrics envC6), sampleModelOf l ≠ some "unknown" := by
  decide

/-- C6 as amended: numeric fields absent from the SMART output default
to zero in the device record, and a missing model or serial key leaves
the record in the snapshot with the empty string (not `"unknown"`) as
its identity value, because `get_nvme_info` defaults the raw keys to
`""` before the formatter's `"unknown"` fallback could ever apply. -/
theorem c6_amended_defaults (env : NvmeEnv) (d : String) (i : IdCtrlData)
    (sm : SmartData) (hd : d ∈ NVME_DEVICES)
    (h1 : env.info d = some i) (h2 : env.smart d = some sm)
    (hmn : i.mn = none) (hsn : i.sn = none)
    (ht : sm.temperature = none) (hcw : sm.critical_warning = none)
    (has : sm.available_spare = none) (hpu : sm.percentage_used = none)
    (hdr : sm.data_units_read = none) (hdw : sm.data_units_written = none)
    (hhr : sm.host_read_commands = none) (hhw : sm.host_write_commands = none)
    (hph : sm.power_on_hours = none) (hpc : sm.power_cycles = none)
    (hus : sm.shutdowns = none) (hme : sm.media_errors = none) :
    ∃ r : DeviceRecord,
      collectOne env d = some (d, [r]) ∧ (d, [r]) ∈ collect_metrics env ∧
      r.model = some "" ∧ r.serial = some "" ∧
      r.temperature = some 0 ∧ r.critical_warning = some 0 ∧
      r.available_spare = some 0 ∧ r.percentage_used = some 0 ∧
      r.data_units_read = some 0 ∧ r.data_units_written = some 0 ∧
      r.host_read_commands = some 0 ∧ r.host_write_commands = some 0 ∧
      r.power_on_hours = some 0 ∧ r.power_cycles = some 0 ∧
      r.shutdowns = some 0 ∧ r.media_errors = some 0 := by
  have hone : collectOne env d = some (d,
      [⟨some "", some "", some (pyStrip (i.fr.getD "")), some 0, some 0,
        some 0, some 0, some 0, some 0, some 0, some 0, some 0, some 0,
        some 0, some 0, env.iostat d⟩]) := by
    unfold collectOne
    simp only [get_nvme_info, h1, Option.map_some', h2, hmn, hsn, ht, hcw,
      has, hpu, hdr, hdw, hhr, hhw, hph, hpc, hus, hme, Option.getD_none]
    norm_num
    rfl
  refine ⟨_, hone, ?_, rfl, rfl, rfl, rfl, rfl, rfl, rfl, rfl, rfl, rfl,
    rfl, rfl, rfl, rfl⟩
  exact List.mem_filterMap.mpr ⟨d, hd, hone⟩

/-- C6 witness: the amended statement at `envC6` for `nvme0`, whose
id-ctrl parse has no keys at all and whose SMART parse is empty. -/
theorem c6_witness :
    ∃ r : DeviceRecord,
      collectOne envC6 "nvme0" = some ("nvme0", [r]) ∧
      ("nvme0", [r]) ∈ collect_metrics envC6 ∧
      r.model = some "" ∧ r.serial = some "" ∧
      r.temperature = some 0 ∧ r.critical_warning = some 0 ∧
      r.available_spare = some 0 ∧ r.percentage_used = some 0 ∧
      r.data_units_read = some 0 ∧ r.data_units_written = some 0 ∧
      r.host_read_commands = some 0 ∧ r.host_write_commands = some 0 ∧
      r.power_on_hours = some 0 ∧ r.power_cycles = some 0 ∧
      r.shutdowns = some 0 ∧ r.media_errors = some 0 :=
  c6_amended_defaults envC6 "nvme0" ⟨none, none, none⟩ smartEmpty
    (by decide) rfl rfl rfl rfl rfl rfl rfl rfl rfl rfl rfl rfl rfl rfl
    rfl rfl

/-- C7 counterexample: a nvidia-smi CSV row with fewer than ten fields
is unparsable for the row parser; the loop skips it emitting neither a
metric nor any log line, so this piece of unparsable tool output is
swallowed without the log line the claim requires. -/
theorem c7_counterexample :
    processGpuLine "0,NVIDIA RTX,55" = .skippedShort ∧
    gpuLineLogs "0,NVIDIA RTX,55" = [] := by
  exact ⟨rfl, rfl⟩

/-- C7 as amended: every failing external command in the NVMe exporter
is logged through `run_command` with the command text and the failure
kind, and a GPU row whose numeric fields fail to parse is logged —
but blank rows and rows with fewer than ten comma-separated fields
are skipped silently. -/
theorem c7_amended_logging :
    (∀ cmd o, (run_command cmd o).1 = none →
      (∃ m, (run_command cmd o).2 =
        ["Error running " ++ String.intercalate " " cmd ++ ": " ++ m]) ∨
      (run_command cmd o).2 =
        ["Timeout running " ++ String.intercalate " " cmd]) ∧
    (∀ line, processGpuLine line = .parseError →
      gpuLineLogs line = ["Error parsing GPU data"]) ∧
    (∀ line, processGpuLine line = .skippedBlank ∨
        processGpuLine line = .skippedShort →
      gpuLineLogs line = []) := by
  refine ⟨fun cmd o h => ?_, fun line h => ?_, fun line h => ?_⟩
  · cases o with
    | ok s => simp [run_command] at h
    | err e => exact Or.inl ⟨e, rfl⟩
    | timedOut => exact Or.inr rfl
  · rw [gpuLineLogs, h]
  · rcases h with h | h
    · rw [gpuLineLogs, h]
    · rw [gpuLineLogs, h]

/-- C7 witness: the amended statement exercised at a failed command, a
GPU row with an unparsable numeric field, and a short GPU row. -/
theorem c7_witness :
    ((∃ m, (run_command ["nvme", "list"] (.err "boom")).2 =
       ["Error running " ++ String.intercalate " " ["nvme", "list"] ++
        ": " ++ m]) ∨
     (run_command ["nvme", "list"] (.err "boom")).2 =
       ["Timeout running " ++ String.intercalate " " ["nvme", "list"]]) ∧
    gpuLineLogs "0,GPU,xx,1,1,1,1,1,1,1" = ["Error parsing GPU data"] ∧
    gpuLineLogs "0,GPU" = [] :=
  ⟨c7_amended_logging.1 ["nvme", "list"] (.err "boom") rfl,
   c7_amended_logging.2.1 "0,GPU,xx,1,1,1,1,1,1,1" rfl,
   c7_amended_logging.2.2 "0,GPU" (Or.inr rfl)⟩

/-- C1 counterexample: two consecutive `GET /metrics` requests with no
collection cycle between them (the GPU exporter has no cycle loop at
all) return different responses when the device state seen by
nvidia-smi differs, because `do_GET` re-runs `get_gpu_metrics` on
every request instead of returning a stored snapshot's text. -/
theorem c1_counterexample :
    do_GET "/metrics" smiA ≠ do_GET "/metrics" smiB := by
  decide

/-- C1 as amended: each `GET /metrics` request triggers a fresh
nvidia-smi sampling and returns the metrics text computed from the
tool state at request time — 200 with the Prometheus content type on
success, 500 with a diagnostic body when the sampling raises — and any
other path yields 404; nothing is cached across requests. -/
theorem c1_amended_fresh_sampling (smi : SmiOutcome) :
    (∀ b, get_gpu_metrics smi = .ok b →
      do_GET "/metrics" smi =
        ⟨200, some "text/plain; version=0.0.4; charset=utf-8", b⟩) ∧
    (∀ e, get_gpu_metrics smi = .error e →
      do_GET "/metrics" smi = ⟨500, some "text/plain", "Error: " ++ e⟩) ∧
    (∀ p, p ≠ "/metrics" → do_GET p smi = ⟨404, none, ""⟩) := by
  refine ⟨fun b hb => ?_, fun e he => ?_, fun p hp => ?_⟩
  · rw [do_GET, if_pos rfl, hb]
  · rw [do_GET, if_pos rfl, he]
  · rw [do_GET, if_neg hp]

/-- C1 witness: a successful empty-output run answers 200 with the
header-only body, and a non-metrics path answers 404. -/
theorem c1_witness :
    get_gpu_metrics smiA = .ok gpuBody0 ∧
    do_GET "/metrics" smiA =
      ⟨200, some "text/plain; version=0.0.4; charset=utf-8", gpuBody0⟩ ∧
    do_GET "/" smiA = ⟨404, none, ""⟩ :=
  ⟨rfl, (c1_amended_fresh_sampling smiA).1 gpuBody0 rfl,
   (c1_amended_fresh_sampling smiA).2.2 "/" (by decide)⟩
